import Mathlib

/-!
Verification of the dimidiumx 3D orbital-visualization client.

This file shallowly embeds the parts of the TypeScript client that the
checked properties are about:

* `OrbitalPaths` — the per-record orbit-curve loop of
  `components/OrbitalPaths.tsx` (scene semi-major axis, eccentricity clamp,
  semi-minor axis, the 181-sample point loop with periastron and inclination
  rotations, and the `pl_orbsmax` skip guard).
* `StarRendererM` — the star-detail view of `components/StarRenderer.tsx`
  (the planet skip guard, the minimum rendered planet size, and the
  click-to-focus camera animation, which has no cancellation and no
  completion callback).
* `SolarSystemM` — the solar-overview view of
  `components/SolarSystemRenderer.tsx` (planet display/hitbox radii, the
  raycaster priority cascades of `onClick` and `onMouseMove`, and the
  single-slot `animationFrameRef` camera animation used by `focusPlanet`
  and the exoplanet-marker click).

Numeric conventions: catalog fields and camera arithmetic are exact
rationals (`ℚ`); trigonometric geometry is over `ℝ`.  A JavaScript number
that would be `NaN` (here: `Math.sqrt` of a negative argument, which then
contaminates every coordinate of the affected points) is modelled as
`Option.none`.  JavaScript's `x || d` default-on-falsy idiom is modelled
by `jsOr` (it substitutes the default for both a missing field and `0`).
-/

/-- JavaScript `x || d` on an optional numeric field: `undefined` and `0`
are falsy, any other number is returned unchanged. -/
def jsOr (x : Option ℚ) (d : ℚ) : ℚ :=
  match x with
  | none => d
  | some v => if v = 0 then d else v

/-- JavaScript `Math.sqrt`: `NaN` (modelled `none`) on negative input. -/
noncomputable def jsSqrt (x : ℝ) : Option ℝ :=
  if 0 ≤ x then some (Real.sqrt x) else none

/-- A three.js `Vector3` with exact rational coordinates (used for the
camera state machines, where no trigonometry occurs). -/
abbrev Vec3 := ℚ × ℚ × ℚ

/-- three.js `Vector3.lerpVectors(v1, v2, t)`: componentwise
`v1 + (v2 - v1) * t`. -/
def lerpVec (v1 v2 : Vec3) (t : ℚ) : Vec3 :=
  (v1.1 + (v2.1 - v1.1) * t,
   v1.2.1 + (v2.2.1 - v1.2.1) * t,
   v1.2.2 + (v2.2.2 - v1.2.2) * t)

namespace OrbitalPaths

/-- The orbital fields of one record consumed by `OrbitalPaths`
(`OrbitData` in `OrbitalPaths.tsx`; the unread `plname` field is omitted).
`none` is a missing CSV field. -/
structure OrbitData where
  pl_orbsmax : Option ℚ
  pl_orbeccen : Option ℚ
  pl_orbincl : Option ℚ
  pl_orblper : Option ℚ
deriving DecidableEq

/-- Line 41: `if (!orbit.pl_orbsmax || orbit.pl_orbsmax <= 0) return;`
(a missing field and `0` are falsy; `0` is also caught by `<= 0`). -/
def skips (o : OrbitData) : Bool :=
  match o.pl_orbsmax with
  | none => true
  | some a => decide (a ≤ 0)

/-- The records for which the `orbits.forEach` loop actually draws a curve
(all records surviving the line-41 guard, in order). -/
def renderedOrbits (orbits : List OrbitData) : List OrbitData :=
  orbits.filter (fun o => ! skips o)

/-- Line 43: `const a = orbit.pl_orbsmax * 3 + starRadius` (the guard has
already ensured `pl_orbsmax` is present when this runs). -/
def sceneA (starRadius : ℚ) (o : OrbitData) : ℚ :=
  (o.pl_orbsmax.getD 0) * 3 + starRadius

/-- Line 44: `const ecc = Math.min(orbit.pl_orbeccen || 0, 0.95)`. -/
def eccUsed (pl_orbeccen : Option ℚ) : ℚ :=
  min (jsOr pl_orbeccen 0) 0.95

/-- Line 45: `const b = a * Math.sqrt(1 - ecc * ecc)`; `NaN` when
`1 - ecc²` is negative. -/
noncomputable def bSemiMinor (a e : ℝ) : Option ℝ :=
  (jsSqrt (1 - e * e)).map (fun s => a * s)

/-- Lines 54-55: the in-plane parametric point `x = a·cos θ`,
`y = b·sin θ` of the drawn ellipse (`b` is the semi-minor axis). -/
noncomputable def planePoint (a b θ : ℝ) : ℝ × ℝ :=
  (a * Real.cos θ, b * Real.sin θ)

/-- Lines 57-64: rotate the in-plane point by the argument of periastron
about Z, then incline about X (`pz` starts at `0`). -/
noncomputable def rotatePoint (incl argp : ℝ) (xy : ℝ × ℝ) : ℝ × ℝ × ℝ :=
  let px := xy.1 * Real.cos argp - xy.2 * Real.sin argp
  let py := xy.1 * Real.sin argp + xy.2 * Real.cos argp
  let pz : ℝ := 0
  (px, py * Real.cos incl - pz * Real.sin incl,
       py * Real.sin incl + pz * Real.cos incl)

/-- Line 52: `theta = (i / 180) * 2 * Math.PI`. -/
noncomputable def thetaAt (i : ℕ) : ℝ :=
  ((i : ℝ) / 180) * (2 * Real.pi)

/-- The `i`-th pushed `Vector3`.  When the semi-minor axis is `NaN`
every coordinate is `NaN` (the `y`-term enters `px`, `py`, and `pz`
multiplications, and `NaN` absorbs them all), so the point is `none`. -/
noncomputable def orbitPointAt (a : ℝ) (bOpt : Option ℝ) (incl argp : ℝ)
    (i : ℕ) : Option (ℝ × ℝ × ℝ) :=
  bOpt.map (fun b => rotatePoint incl argp (planePoint a b (thetaAt i)))

/-- Lines 43-67: the full list of 181 curve points pushed for one record
(`for (let i = 0; i <= 180; i++)`), with the record's fields defaulted
and converted exactly as in the source. -/
noncomputable def orbitCurve (starRadius : ℚ) (o : OrbitData) :
    List (Option (ℝ × ℝ × ℝ)) :=
  let a : ℝ := (sceneA starRadius o : ℚ)
  let b := bSemiMinor a ((eccUsed o.pl_orbeccen : ℚ) : ℝ)
  let incl : ℝ := ((jsOr o.pl_orbincl 0 : ℚ) : ℝ) * (Real.pi / 180)
  let argp : ℝ := ((jsOr o.pl_orblper 0 : ℚ) : ℝ) * (Real.pi / 180)
  List.ofFn (fun i : Fin 181 => orbitPointAt a b incl argp i)

/-- Modelled from the spec: `ellipsePoint(elements, trueAnomaly θ)` with
`r = a(1-e²)/(1+e·cos θ)`, `x = r·cos θ`, `y = r·sin θ` — the focus-based
radial formula the spec attributes to the orbit point loop. -/
noncomputable def ellipsePointSpec (a e θ : ℝ) : ℝ × ℝ :=
  let r := a * (1 - e * e) / (1 + e * Real.cos θ)
  (r * Real.cos θ, r * Real.sin θ)

end OrbitalPaths

namespace StarRendererM

/-- The fields of a `PlanetRecord` read by `StarRenderer.tsx`. -/
structure PlanetRecord where
  pl_orbsmax : Option ℚ
  pl_orbeccen : Option ℚ
  pl_orbincl : Option ℚ
  pl_orblper : Option ℚ
  pl_rade : Option ℚ
deriving DecidableEq

/-- Line 419: `if (!planet.pl_orbsmax || planet.pl_orbsmax <= 0) return;`. -/
def skipsPlanet (p : PlanetRecord) : Bool :=
  match p.pl_orbsmax with
  | none => true
  | some a => decide (a ≤ 0)

/-- The records for which `planets.forEach` creates an orbit line and a
planet mesh (lines 418-492): everything past the line-419 guard. -/
def renderedPlanets (ps : List PlanetRecord) : List PlanetRecord :=
  ps.filter (fun p => ! skipsPlanet p)

/-- Lines 447-451: the rendered (and picked) planet sphere radius in scene
units, floored at `MIN_PLANET_SIZE = 0.5`
(`pl_rade || 1`, `EARTH_RADIUS_AU = 0.0000426`, `AU_TO_SCENE_UNITS = 100`,
`SYSTEM_SCALE = 0.5`). -/
def planetRadiusScene (pl_rade : Option ℚ) : ℚ :=
  let r := jsOr pl_rade 1 * 0.0000426 * 100 * 0.5
  if r < 0.5 then 0.5 else r

end StarRendererM

namespace SolarSystemM

/-- Lines 208-210: the overview display radius of a planet,
`Math.max(0.15, (planetRealRadius / sunRealRadius) * SUN_DISPLAY_RADIUS)`
with `sunRealRadius = 696000` and `SUN_DISPLAY_RADIUS = 10`. -/
def displayRadius (planetRealRadius : ℚ) : ℚ :=
  max 0.15 (planetRealRadius / 696000 * 10)

/-- Line 252: the invisible hitbox sphere radius,
`Math.max(displayRadius * 3, 2.5)`. -/
def hitboxRadius (d : ℚ) : ℚ :=
  max (d * 3) 2.5

/-- One raycaster intersection: distance from the camera plus the
identity of the hit entity.  `raycaster.intersectObjects` returns its
hits sorted nearest-first; theorems that rely on that carry a
`List.Sorted` hypothesis. -/
structure Hit where
  dist : ℚ
  ident : ℕ
deriving DecidableEq

/-- Nearest-first ordering on intersections. -/
def hitLE (x y : Hit) : Prop := x.dist ≤ y.dist

instance : DecidableRel hitLE := fun x y => inferInstanceAs (Decidable (x.dist ≤ y.dist))

/-- What a click in the solar overview resolves to (`onClick`,
lines 468-556): a planet hitbox, a planet mesh, or a system marker. -/
inductive ClickResult where
  | planet (h : Hit)
  | planetMesh (h : Hit)
  | marker (h : Hit)
deriving DecidableEq

/-- The priority cascade of `onClick` (lines 477-556): invisible hitboxes
first, then actual planet meshes, then system markers (whose
`systemIndex` must be in range, line 518); each tier takes
`intersects[0]`, the nearest hit.  Note there is no orbit-curve tier. -/
def onClickPick (numSystems : ℕ) (hitboxHits meshHits markerHits : List Hit) :
    Option ClickResult :=
  match hitboxHits with
  | h :: _ => some (ClickResult.planet h)
  | [] =>
    match meshHits with
    | h :: _ => some (ClickResult.planetMesh h)
    | [] =>
      match markerHits with
      | h :: _ => if h.ident < numSystems then some (ClickResult.marker h) else none
      | [] => none

/-- The two hover pieces of React state written by `onMouseMove`
(`hoveredOrbit`, `hoveredSystem`). -/
structure HoverState where
  hoveredOrbit : Option ℕ
  hoveredSystem : Option ℕ
deriving DecidableEq

/-- The hover cascade of `onMouseMove` (lines 385-420): hitboxes first
(early return, hover state untouched), then orbit lines (sets
`hoveredOrbit`, else clears it), then system markers (sets
`hoveredSystem` when the index is valid); a full miss executes
`setHoveredSystem(null)`.  Note there is no planet-mesh tier here. -/
def onMouseMoveUpdate (numSystems : ℕ)
    (hitboxHits orbitHits markerHits : List Hit) (st : HoverState) :
    HoverState :=
  match hitboxHits with
  | _ :: _ => st
  | [] =>
    match orbitHits with
    | h :: _ => { st with hoveredOrbit := some h.ident }
    | [] =>
      let st1 : HoverState := { st with hoveredOrbit := none }
      match markerHits with
      | h :: _ =>
        if h.ident < numSystems then { st1 with hoveredSystem := some h.ident }
        else { st1 with hoveredSystem := none }
      | [] => { st1 with hoveredSystem := none }

/-- Which completion effect a camera animation carries: `focusDone` is
`focusPlanet`'s `animateCamera` (snap to end pose, `setIsTransitioning(false)`,
lines 454-462); `markerSwitch` is the exoplanet-marker transition
(`onSystemClick`, lines 543-547, with no snap). -/
inductive DoneKind where
  | focusDone
  | markerSwitch
deriving DecidableEq

/-- A camera animation closure scheduled through `animationFrameRef`:
captured start/end poses, accumulated `progress`, the per-call increment,
and which completion effect the `else` branch runs. -/
structure SolarAnim where
  startPos : Vec3
  startTarget : Vec3
  endPos : Vec3
  endTarget : Vec3
  progress : ℚ
  stepSize : ℚ
  kind : DoneKind
deriving DecidableEq

/-- The mutable state of `SolarSystemRenderer` the camera animations
touch: camera pose, `controls.target`, the single `animationFrameRef`
slot, the `isTransitioning` and `focusedPlanet` React state, and counters
for completion-callback runs (`setIsTransitioning(false)` reached) and
`onSystemClick` invocations. -/
structure SolarState where
  cameraPos : Vec3
  target : Vec3
  animRef : Option SolarAnim
  transitioning : Bool
  focused : Option ℕ
  completions : ℕ
  viewSwitches : ℕ
deriving DecidableEq

/-- One invocation of an animation closure: advance `progress` by the
step; while `progress < 1`, lerp camera and target and reschedule
(lines 446-453 and 537-542); otherwise run the completion effect —
`focusDone` snaps to the exact end pose, clears `isTransitioning`, and
nulls the ref (lines 454-462); `markerSwitch` nulls the ref and calls
`onSystemClick` without touching the camera (lines 543-547). -/
def solarStep (a : SolarAnim) (s : SolarState) : SolarState :=
  let p := a.progress + a.stepSize
  if p < 1 then
    { s with cameraPos := lerpVec a.startPos a.endPos p,
             target := lerpVec a.startTarget a.endTarget p,
             animRef := some { a with progress := p } }
  else
    match a.kind with
    | DoneKind.focusDone =>
      { s with cameraPos := a.endPos, target := a.endTarget,
               transitioning := false, animRef := none,
               completions := s.completions + 1 }
    | DoneKind.markerSwitch =>
      { s with animRef := none, viewSwitches := s.viewSwitches + 1 }

/-- One animation frame: run the scheduled closure, if any. -/
def solarTick (s : SolarState) : SolarState :=
  match s.animRef with
  | none => s
  | some a => solarStep a s

/-- Lines 429-434: `focusPlanet`'s end camera position,
`planetPosition + (d, d·0.5, d)` with `d = Math.max(planetRadius * 8, 5)`. -/
def focusEnd (planetPos : Vec3) (planetRadius : ℚ) : Vec3 :=
  let d := max (planetRadius * 8) 5
  (planetPos.1 + d, planetPos.2.1 + d * 0.5, planetPos.2.2 + d)

/-- `focusPlanet` (lines 423-466): set `focusedPlanet` and
`isTransitioning`, capture the camera's current pose as the start pose,
cancel whatever animation frame is pending, then call `animateCamera()`
once synchronously (step `0.04` per call). -/
def focusPlanet (planetName : ℕ) (planetPos : Vec3) (planetRadius : ℚ)
    (s : SolarState) : SolarState :=
  let s1 : SolarState :=
    { s with focused := some planetName, transitioning := true, animRef := none }
  let a : SolarAnim :=
    { startPos := s.cameraPos, startTarget := s.target,
      endPos := focusEnd planetPos planetRadius, endTarget := planetPos,
      progress := 0, stepSize := 0.04, kind := DoneKind.focusDone }
  solarStep a s1

/-- Lines 530-531: the end camera position of the marker transition,
`markerPos + (50, 25, 50)` (`zoomDistance = 50`). -/
def markerEnd (markerPos : Vec3) : Vec3 :=
  (markerPos.1 + 50, markerPos.2.1 + 25, markerPos.2.2 + 50)

/-- The exoplanet-marker click branch (lines 518-551): set
`isTransitioning`, cancel any pending frame, capture the start pose, and
call `animateTransition()` once synchronously (step `1/transitionDuration`
with `transitionDuration = 60`; the `else` branch calls `onSystemClick`). -/
def clickMarker (markerPos : Vec3) (s : SolarState) : SolarState :=
  let s1 : SolarState := { s with transitioning := true, animRef := none }
  let a : SolarAnim :=
    { startPos := s.cameraPos, startTarget := s.target,
      endPos := markerEnd markerPos, endTarget := markerPos,
      progress := 0, stepSize := 1/60, kind := DoneKind.markerSwitch }
  solarStep a s1

end SolarSystemM

namespace StarRendererM

/-- A camera animation closure started by `StarRenderer`'s planet click
(lines 563-576).  Unlike the overview, nothing tracks or cancels these
closures. -/
structure StarAnim where
  startPos : Vec3
  startTarget : Vec3
  endPos : Vec3
  endTarget : Vec3
  progress : ℚ
deriving DecidableEq

/-- The camera-relevant state of `StarRenderer`: camera pose,
`controls.target`, the list of animation closures currently scheduled via
`requestAnimationFrame` (in scheduling order), and a counter of
completion-callback runs — no branch of the click animation ever runs
one (lines 567-574 have no `else`), so nothing increments it. -/
structure StarCamState where
  cameraPos : Vec3
  target : Vec3
  anims : List StarAnim
  completions : ℕ
deriving DecidableEq

/-- One invocation of a click-animation closure (lines 567-574):
`progress += 0.02`; while `progress <= 1`, lerp and reschedule; once
`progress` exceeds `1` the closure just stops rescheduling — no snap, no
completion action.  Returns the updated state and the rescheduled
closure, if any. -/
def starStepAnim (a : StarAnim) (s : StarCamState) :
    StarCamState × Option StarAnim :=
  let p := a.progress + 0.02
  if p ≤ 1 then
    ({ s with cameraPos := lerpVec a.startPos a.endPos p,
              target := lerpVec a.startTarget a.endTarget p },
     some { a with progress := p })
  else (s, none)

/-- The planet-click handler (lines 550-576): compute
`newCameraPos = targetPos + (50, 25, 50)` (`distance = 50`), capture the
current pose, start `progress` at `0`, and call `animateCamera()` once
synchronously.  The new closure joins whatever closures are already
running — there is no `cancelAnimationFrame` here. -/
def starClick (targetPos : Vec3) (s : StarCamState) : StarCamState :=
  let a : StarAnim :=
    { startPos := s.cameraPos, startTarget := s.target,
      endPos := (targetPos.1 + 50, targetPos.2.1 + 25, targetPos.2.2 + 50),
      endTarget := targetPos, progress := 0 }
  let r := starStepAnim a s
  { r.1 with anims := s.anims ++ r.2.toList }

/-- Run the scheduled closures of one frame in order, collecting the
closures rescheduled for the next frame. -/
def starTickGo : List StarAnim → StarCamState → StarCamState
  | [], acc => acc
  | a :: rest, acc =>
    let q := starStepAnim a acc
    starTickGo rest { q.1 with anims := q.1.anims ++ q.2.toList }

/-- One animation frame in `StarRenderer`: every scheduled click-animation
closure runs once. -/
def starTick (s : StarCamState) : StarCamState :=
  starTickGo s.anims { s with anims := [] }

/-- The property the spec asserts of every view: at most one camera
transition live per camera at any time. -/
def atMostOneLive (s : StarCamState) : Prop :=
  s.anims.length ≤ 1

instance (s : StarCamState) : Decidable (atMostOneLive s) :=
  inferInstanceAs (Decidable (s.anims.length ≤ 1))

end StarRendererM

open OrbitalPaths StarRendererM SolarSystemM

theorem solarStep_cont (a : SolarAnim) (s : SolarState)
    (h : a.progress + a.stepSize < 1) :
    solarStep a s =
      { s with cameraPos := lerpVec a.startPos a.endPos (a.progress + a.stepSize),
               target := lerpVec a.startTarget a.endTarget (a.progress + a.stepSize),
               animRef := some { a with progress := a.progress + a.stepSize } } := by
  simp only [solarStep]
  rw [if_pos h]

theorem solarStep_focusDone (a : SolarAnim) (s : SolarState)
    (h : ¬ a.progress + a.stepSize < 1) (hk : a.kind = DoneKind.focusDone) :
    solarStep a s =
      { s with cameraPos := a.endPos, target := a.endTarget,
               transitioning := false, animRef := none,
               completions := s.completions + 1 } := by
  simp only [solarStep]
  rw [if_neg h, hk]

theorem solarStep_marker (a : SolarAnim) (s : SolarState)
    (h : ¬ a.progress + a.stepSize < 1) (hk : a.kind = DoneKind.markerSwitch) :
    solarStep a s =
      { s with animRef := none, viewSwitches := s.viewSwitches + 1 } := by
  simp only [solarStep]
  rw [if_neg h, hk]

theorem solarTick_none (s : SolarState) (h : s.animRef = none) :
    solarTick s = s := by
  simp only [solarTick]
  rw [h]

theorem solarTick_some (s : SolarState) (a : SolarAnim) (h : s.animRef = some a) :
    solarTick s = solarStep a s := by
  simp only [solarTick]
  rw [h]

theorem solarRun (k : ℕ) : ∀ (j m : ℕ), j + k + 2 = m →
    ∀ (s : SolarState) (a : SolarAnim),
    s.animRef = some a → a.stepSize = 1 / (m : ℚ) →
    a.progress = ((j : ℚ) + 1) / (m : ℚ) →
    (solarTick^[k + 1] s).animRef = none ∧
    (solarTick^[k + 1] s).focused = s.focused ∧
    (a.kind = DoneKind.focusDone →
      (solarTick^[k + 1] s).cameraPos = a.endPos ∧
      (solarTick^[k + 1] s).target = a.endTarget ∧
      (solarTick^[k + 1] s).transitioning = false ∧
      (solarTick^[k + 1] s).completions = s.completions + 1 ∧
      (solarTick^[k + 1] s).viewSwitches = s.viewSwitches) ∧
    (a.kind = DoneKind.markerSwitch →
      (solarTick^[k + 1] s).viewSwitches = s.viewSwitches + 1 ∧
      (solarTick^[k + 1] s).completions = s.completions ∧
      (solarTick^[k + 1] s).transitioning = s.transitioning) := by
  induction k with
  | zero =>
    intro j m hm s a href hstep hprog
    have hmQ : ((m : ℚ)) ≠ 0 := by
      have : (0 : ℕ) < m := by omega
      exact_mod_cast this.ne'
    have hsum : a.progress + a.stepSize = 1 := by
      rw [hstep, hprog, div_add_div_same]
      have hjm : ((j : ℚ) + 1 + 1) = (m : ℚ) := by
        have : ((j + 2 : ℕ) : ℚ) = ((m : ℕ) : ℚ) := by exact_mod_cast congrArg (Nat.cast : ℕ → ℚ) (by omega : j + 2 = m)
        push_cast at this
        linarith
      rw [hjm, div_self hmQ]
    have hnot : ¬ a.progress + a.stepSize < 1 := by rw [hsum]; exact lt_irrefl 1
    have htick : solarTick^[0 + 1] s = solarStep a s := solarTick_some s a href
    rw [htick]
    cases hk : a.kind with
    | focusDone =>
      rw [solarStep_focusDone a s hnot hk]
      exact ⟨rfl, rfl, fun _ => ⟨rfl, rfl, rfl, rfl, rfl⟩, fun hcon => absurd hcon (by decide)⟩
    | markerSwitch =>
      rw [solarStep_marker a s hnot hk]
      exact ⟨rfl, rfl, fun hcon => absurd hcon (by decide), fun _ => ⟨rfl, rfl, rfl⟩⟩
  | succ k ih =>
    intro j m hm s a href hstep hprog
    have hmQ : (0 : ℚ) < (m : ℚ) := by
      have : (0 : ℕ) < m := by omega
      exact_mod_cast this
    have hlt : a.progress + a.stepSize < 1 := by
      rw [hstep, hprog, div_add_div_same, div_lt_one hmQ]
      have : ((j + 2 : ℕ) : ℚ) < ((m : ℕ) : ℚ) := by exact_mod_cast (by omega : j + 2 < m)
      push_cast at this
      linarith
    have htick : solarTick s =
        { s with cameraPos := lerpVec a.startPos a.endPos (a.progress + a.stepSize),
                 target := lerpVec a.startTarget a.endTarget (a.progress + a.stepSize),
                 animRef := some { a with progress := a.progress + a.stepSize } } := by
      rw [solarTick_some s a href]
      exact solarStep_cont a s hlt
    have hprog2 : ({ a with progress := a.progress + a.stepSize } : SolarAnim).progress =
        (((j + 1 : ℕ) : ℚ) + 1) / (m : ℚ) := by
      show a.progress + a.stepSize = _
      rw [hstep, hprog, div_add_div_same]
      push_cast
      ring
    have hres := ih (j + 1) m (by omega) (solarTick s)
      { a with progress := a.progress + a.stepSize }
      (by rw [htick]) (by show a.stepSize = _; exact hstep) hprog2
    have hiter : solarTick^[k + 1 + 1] s = solarTick^[k + 1] (solarTick s) :=
      Function.iterate_succ_apply solarTick (k + 1) s
    rw [hiter]
    have hfoc : (solarTick s).focused = s.focused := by rw [htick]
    have hcom : (solarTick s).completions = s.completions := by rw [htick]
    have hvs : (solarTick s).viewSwitches = s.viewSwitches := by rw [htick]
    have htr : (solarTick s).transitioning = s.transitioning := by rw [htick]
    obtain ⟨h1, h2, h3, h4⟩ := hres
    refine ⟨h1, by rw [h2, hfoc], fun hk => ?_, fun hk => ?_⟩
    · obtain ⟨c1, c2, c3, c4, c5⟩ := h3 hk
      exact ⟨c1, c2, c3, by rw [c4, hcom], by rw [c5, hvs]⟩
    · obtain ⟨c1, c2, c3⟩ := h4 hk
      exact ⟨by rw [c1, hvs], by rw [c2, hcom], by rw [c3, htr]⟩

theorem solarMid (n : ℕ) : ∀ (j m : ℕ), n + j + 2 ≤ m →
    ∀ (s : SolarState) (a : SolarAnim),
    s.animRef = some a → a.stepSize = 1 / (m : ℚ) →
    a.progress = ((j : ℚ) + 1) / (m : ℚ) →
    ∃ a2 : SolarAnim, (solarTick^[n] s).animRef = some a2 ∧
      a2.progress = ((n : ℚ) + (j : ℚ) + 1) / (m : ℚ) ∧ a2.progress < 1 ∧
      a2.stepSize = a.stepSize ∧ a2.kind = a.kind ∧
      (solarTick^[n] s).viewSwitches = s.viewSwitches ∧
      (solarTick^[n] s).completions = s.completions := by
  induction n with
  | zero =>
    intro j m hm s a href hstep hprog
    refine ⟨a, href, ?_, ?_, rfl, rfl, rfl, rfl⟩
    · rw [hprog]; push_cast; ring
    · rw [hprog, div_lt_one (by exact_mod_cast (by omega : (0:ℕ) < m))]
      have : ((j + 1 : ℕ) : ℚ) < ((m : ℕ) : ℚ) := by exact_mod_cast (by omega : j + 1 < m)
      push_cast at this
      linarith
  | succ n ih =>
    intro j m hm s a href hstep hprog
    have hmQ : (0 : ℚ) < (m : ℚ) := by exact_mod_cast (by omega : (0:ℕ) < m)
    have hlt : a.progress + a.stepSize < 1 := by
      rw [hstep, hprog, div_add_div_same, div_lt_one hmQ]
      have : ((j + 2 : ℕ) : ℚ) < ((m : ℕ) : ℚ) := by exact_mod_cast (by omega : j + 2 < m)
      push_cast at this
      linarith
    have htick : solarTick s =
        { s with cameraPos := lerpVec a.startPos a.endPos (a.progress + a.stepSize),
                 target := lerpVec a.startTarget a.endTarget (a.progress + a.stepSize),
                 animRef := some { a with progress := a.progress + a.stepSize } } := by
      rw [solarTick_some s a href]
      exact solarStep_cont a s hlt
    have hprog2 : ({ a with progress := a.progress + a.stepSize } : SolarAnim).progress =
        (((j + 1 : ℕ) : ℚ) + 1) / (m : ℚ) := by
      show a.progress + a.stepSize = _
      rw [hstep, hprog, div_add_div_same]
      push_cast
      ring
    obtain ⟨a2, h1, h2, h3, h4, h5, h6, h7⟩ := ih (j + 1) m (by omega) (solarTick s)
      { a with progress := a.progress + a.stepSize }
      (by rw [htick]) hstep hprog2
    have hiter : solarTick^[n + 1] s = solarTick^[n] (solarTick s) :=
      Function.iterate_succ_apply solarTick n s
    refine ⟨a2, by rw [hiter]; exact h1, ?_, h3, h4, h5, ?_, ?_⟩
    · rw [h2]; push_cast; ring
    · rw [hiter, h6, htick]
    · rw [hiter, h7, htick]

theorem focusPlanet_eq (nm : ℕ) (p : Vec3) (r : ℚ) (s : SolarState) :
    focusPlanet nm p r s =
      { s with focused := some nm, transitioning := true,
               cameraPos := lerpVec s.cameraPos (focusEnd p r) (0 + 0.04),
               target := lerpVec s.target p (0 + 0.04),
               animRef := some { startPos := s.cameraPos, startTarget := s.target,
                                 endPos := focusEnd p r, endTarget := p,
                                 progress := 0 + 0.04, stepSize := 0.04,
                                 kind := DoneKind.focusDone } } := by
  show solarStep _ _ = _
  rw [solarStep_cont _ _ (by norm_num)]

theorem clickMarker_eq (markerPos : Vec3) (s : SolarState) :
    clickMarker markerPos s =
      { s with transitioning := true,
               cameraPos := lerpVec s.cameraPos (markerEnd markerPos) (0 + 1/60),
               target := lerpVec s.target markerPos (0 + 1/60),
               animRef := some { startPos := s.cameraPos, startTarget := s.target,
                                 endPos := markerEnd markerPos, endTarget := markerPos,
                                 progress := 0 + 1/60, stepSize := 1/60,
                                 kind := DoneKind.markerSwitch } } := by
  show solarStep _ _ = _
  rw [solarStep_cont _ _ (by norm_num)]

/-- C3 (amended): in `SolarSystemRenderer`, `focusPlanet` discards any
pending camera animation before installing its own (the single
`animationFrameRef` slot holds the new transition, whose captured start
pose is the camera's current pose at supersession time), and running the
new transition to completion fires exactly one completion overall — the
superseded transition's completion never runs. -/
theorem c3_solar_supersede_single_completion
    (s : SolarState) (nm : ℕ) (p : Vec3) (r : ℚ) :
    (∃ a : SolarAnim, (focusPlanet nm p r s).animRef = some a ∧
      a.startPos = s.cameraPos ∧ a.startTarget = s.target ∧
      a.endTarget = p ∧ a.progress = 0.04) ∧
    (solarTick^[24] (focusPlanet nm p r s)).completions = s.completions + 1 ∧
    (solarTick^[24] (focusPlanet nm p r s)).animRef = none ∧
    solarTick (solarTick^[24] (focusPlanet nm p r s)) =
      solarTick^[24] (focusPlanet nm p r s) := by
  obtain ⟨aI, href, hstep, hprog, hkind⟩ :
      ∃ aI : SolarAnim, (focusPlanet nm p r s).animRef = some aI ∧
        aI.stepSize = 1 / ((25 : ℕ) : ℚ) ∧
        aI.progress = (((0 : ℕ) : ℚ) + 1) / ((25 : ℕ) : ℚ) ∧
        aI.startPos = s.cameraPos ∧ aI.startTarget = s.target ∧
        aI.endTarget = p ∧ aI.kind = DoneKind.focusDone := by
    refine ⟨_, by rw [focusPlanet_eq], ?_, ?_, rfl, rfl, rfl, rfl⟩
    · show (0.04 : ℚ) = _
      norm_num
    · show (0 : ℚ) + 0.04 = _
      norm_num
  obtain ⟨hk1, hk2, hk3, hk4⟩ := hkind
  obtain ⟨h1, _, h3, _⟩ := solarRun 23 0 25 (by norm_num) _ aI href hstep hprog
  obtain ⟨_, _, _, c4, _⟩ := h3 hk4
  have hcom : (focusPlanet nm p r s).completions = s.completions := by
    rw [focusPlanet_eq]
  refine ⟨⟨aI, href, hk1, hk2, hk3, ?_⟩, ?_, h1, solarTick_none _ h1⟩
  · rw [hprog]
    norm_num
  · rw [c4, hcom]

/-- C4 (amended): a `focusPlanet` transition ticked to completion snaps
the camera to exactly the end position and end look-target, clears
`isTransitioning`, runs its completion effect exactly once, and no
further ticks of the transition occur. -/
theorem c4_solar_exact_end_pose (s : SolarState) (nm : ℕ) (p : Vec3) (r : ℚ) :
    (solarTick^[24] (focusPlanet nm p r s)).cameraPos = focusEnd p r ∧
    (solarTick^[24] (focusPlanet nm p r s)).target = p ∧
    (solarTick^[24] (focusPlanet nm p r s)).transitioning = false ∧
    (solarTick^[24] (focusPlanet nm p r s)).completions = s.completions + 1 ∧
    (solarTick^[24] (focusPlanet nm p r s)).animRef = none ∧
    solarTick (solarTick^[24] (focusPlanet nm p r s)) =
      solarTick^[24] (focusPlanet nm p r s) := by
  obtain ⟨aI, href, hstep, hprog, hend, htgt, hkind⟩ :
      ∃ aI : SolarAnim, (focusPlanet nm p r s).animRef = some aI ∧
        aI.stepSize = 1 / ((25 : ℕ) : ℚ) ∧
        aI.progress = (((0 : ℕ) : ℚ) + 1) / ((25 : ℕ) : ℚ) ∧
        aI.endPos = focusEnd p r ∧ aI.endTarget = p ∧
        aI.kind = DoneKind.focusDone := by
    refine ⟨_, by rw [focusPlanet_eq], ?_, ?_, rfl, rfl, rfl⟩
    · show (0.04 : ℚ) = _
      norm_num
    · show (0 : ℚ) + 0.04 = _
      norm_num
  obtain ⟨h1, _, h3, _⟩ := solarRun 23 0 25 (by norm_num) _ aI href hstep hprog
  obtain ⟨c1, c2, c3, c4, _⟩ := h3 hkind
  have hcom : (focusPlanet nm p r s).completions = s.completions := by
    rw [focusPlanet_eq]
  exact ⟨by rw [c1, hend], by rw [c2, htgt], c3, by rw [c4, hcom], h1,
    solarTick_none _ h1⟩

/-- C7: on picking an exoplanet system marker, `onSystemClick` (the view
swap) is invoked exactly on the tick where the transition's progress
reaches 1: through 58 further frames after the click the transition is
still live with progress `(n+1)/60 < 1` and the view switch has not
fired; on the 59th it fires exactly once and the transition ends, with
no further ticks. -/
theorem c7_view_switch_only_at_completion (s : SolarState) (markerPos : Vec3) :
    (clickMarker markerPos s).viewSwitches = s.viewSwitches ∧
    (∀ n : ℕ, n ≤ 58 →
      (solarTick^[n] (clickMarker markerPos s)).viewSwitches = s.viewSwitches ∧
      ∃ a : SolarAnim, (solarTick^[n] (clickMarker markerPos s)).animRef = some a ∧
        a.progress = ((n : ℚ) + 1) / 60 ∧ a.progress < 1) ∧
    (solarTick^[59] (clickMarker markerPos s)).viewSwitches = s.viewSwitches + 1 ∧
    (solarTick^[59] (clickMarker markerPos s)).animRef = none ∧
    solarTick (solarTick^[59] (clickMarker markerPos s)) =
      solarTick^[59] (clickMarker markerPos s) := by
  obtain ⟨aI, href, hstep, hprog, hkind⟩ :
      ∃ aI : SolarAnim, (clickMarker markerPos s).animRef = some aI ∧
        aI.stepSize = 1 / ((60 : ℕ) : ℚ) ∧
        aI.progress = (((0 : ℕ) : ℚ) + 1) / ((60 : ℕ) : ℚ) ∧
        aI.kind = DoneKind.markerSwitch := by
    refine ⟨_, by rw [clickMarker_eq], ?_, ?_, rfl⟩
    · show (1 / 60 : ℚ) = _
      norm_num
    · show (0 : ℚ) + 1 / 60 = _
      norm_num
  have hvs0 : (clickMarker markerPos s).viewSwitches = s.viewSwitches := by
    rw [clickMarker_eq]
  obtain ⟨h1, _, _, h4⟩ := solarRun 58 0 60 (by norm_num) _ aI href hstep hprog
  obtain ⟨c1, _, _⟩ := h4 hkind
  refine ⟨hvs0, ?_, by rw [c1, hvs0], h1, solarTick_none _ h1⟩
  intro n hn
  obtain ⟨a2, m1, m2, m3, _, _, m6, _⟩ :=
    solarMid n 0 60 (by omega) _ aI href hstep hprog
  refine ⟨by rw [m6, hvs0], a2, m1, ?_, m3⟩
  rw [m2]
  push_cast
  ring

theorem starClick_eq (t : Vec3) (s : StarCamState) :
    starClick t s =
      { s with cameraPos := lerpVec s.cameraPos (t.1 + 50, t.2.1 + 25, t.2.2 + 50) (0 + 0.02),
               target := lerpVec s.target t (0 + 0.02),
               anims := s.anims ++ [{ startPos := s.cameraPos, startTarget := s.target,
                                      endPos := (t.1 + 50, t.2.1 + 25, t.2.2 + 50),
                                      endTarget := t, progress := 0 + 0.02 }] } := by
  unfold starClick starStepAnim
  dsimp only
  rw [if_pos (by norm_num : (0 : ℚ) + 0.02 ≤ 1)]
  rfl

theorem starTick_single (a : StarAnim) (s : StarCamState) (h : s.anims = [a]) :
    starTick s =
      if a.progress + 0.02 ≤ 1 then
        { s with cameraPos := lerpVec a.startPos a.endPos (a.progress + 0.02),
                 target := lerpVec a.startTarget a.endTarget (a.progress + 0.02),
                 anims := [{ a with progress := a.progress + 0.02 }] }
      else { s with anims := [] } := by
  unfold starTick
  rw [h]
  by_cases hc : a.progress + 0.02 ≤ 1
  · rw [if_pos hc]
    show starTickGo [a] _ = _
    unfold starTickGo starStepAnim
    dsimp only
    rw [if_pos hc]
    rfl
  · rw [if_neg hc]
    show starTickGo [a] _ = _
    unfold starTickGo starStepAnim
    dsimp only
    rw [if_neg hc]
    rfl

theorem starRunSingle (k : ℕ) : ∀ (j : ℕ) (s : StarCamState) (a : StarAnim),
    j + k = 51 → 1 ≤ j → j ≤ 50 → s.anims = [a] → a.progress = (j : ℚ) / 50 →
    (starTick^[k] s).anims = [] ∧ (starTick^[k] s).completions = s.completions := by
  induction k with
  | zero =>
    intro j s a hjk hj1 hj50 hanims hprog
    omega
  | succ k ih =>
    intro j s a hjk hj1 hj50 hanims hprog
    by_cases hdone : j = 50
    · subst hdone
      have hk0 : k = 0 := by omega
      subst hk0
      have hnot : ¬ a.progress + 0.02 ≤ 1 := by
        rw [hprog]
        norm_num
      have htick : starTick s = { s with anims := [] } := by
        rw [starTick_single a s hanims, if_neg hnot]
      show (starTick^[0 + 1] s).anims = [] ∧ (starTick^[0 + 1] s).completions = s.completions
      rw [show starTick^[0 + 1] s = starTick s from rfl, htick]
      exact ⟨rfl, rfl⟩
    · have hsum : a.progress + 0.02 = ((j + 1 : ℕ) : ℚ) / 50 := by
        rw [hprog, show (0.02 : ℚ) = 1 / 50 from by norm_num, div_add_div_same]
        push_cast
        ring
      have hc : a.progress + 0.02 ≤ 1 := by
        rw [hsum, div_le_one (by norm_num : (0:ℚ) < 50)]
        exact_mod_cast (by omega : j + 1 ≤ 50)
      have htick : starTick s =
          { s with cameraPos := lerpVec a.startPos a.endPos (a.progress + 0.02),
                   target := lerpVec a.startTarget a.endTarget (a.progress + 0.02),
                   anims := [{ a with progress := a.progress + 0.02 }] } := by
        rw [starTick_single a s hanims, if_pos hc]
      have hres := ih (j + 1) (starTick s) { a with progress := a.progress + 0.02 }
        (by omega) (by omega) (by omega) (by rw [htick]) (by show a.progress + 0.02 = _; rw [hsum])
      have hiter : starTick^[k + 1] s = starTick^[k] (starTick s) :=
        Function.iterate_succ_apply starTick k s
      rw [hiter]
      exact ⟨hres.1, by rw [hres.2, htick]⟩

/-- C3 counterexample: in `StarRenderer`'s detail view, clicking a second
planet while the first click's camera animation is still in flight does
NOT cancel it — afterwards two animation closures are live at once, so
"at most one camera transition is live per camera at any time" is false
for this code. -/
theorem c3_counterexample_star_two_live :
    ¬ atMostOneLive (starClick (0, 0, 200) (starClick (100, 0, 0)
      { cameraPos := (0, 0, 0), target := (0, 0, 0), anims := [], completions := 0 })) ∧
    (starClick (0, 0, 200) (starClick (100, 0, 0)
      { cameraPos := (0, 0, 0), target := (0, 0, 0), anims := [], completions := 0 })).anims.length = 2 := by
  have hlen : (starClick (0, 0, 200) (starClick (100, 0, 0)
      { cameraPos := (0, 0, 0), target := (0, 0, 0), anims := [], completions := 0 })).anims.length = 2 := by
    rw [starClick_eq, starClick_eq]
    simp
  refine ⟨fun hle => ?_, hlen⟩
  unfold atMostOneLive at hle
  rw [hlen] at hle
  omega

/-- C4 counterexample: the `StarRenderer` click transition, ticked until
its progress exceeds 1 (50 frames after the synchronous first step), runs
zero completion actions — its `animateCamera` loop has no `else` branch —
so "the transition's completion action runs exactly once" is false for
this code. -/
theorem c4_counterexample_star_no_completion :
    (starTick^[50] (starClick (100, 0, 0)
      { cameraPos := (0, 0, 0), target := (0, 0, 0), anims := [], completions := 0 })).completions = 0 ∧
    (starTick^[50] (starClick (100, 0, 0)
      { cameraPos := (0, 0, 0), target := (0, 0, 0), anims := [], completions := 0 })).anims = [] := by
  obtain ⟨aI, hanims, hprog⟩ :
      ∃ aI : StarAnim, (starClick (100, 0, 0)
        { cameraPos := (0, 0, 0), target := (0, 0, 0), anims := [], completions := 0 }).anims = [aI] ∧
        aI.progress = ((1 : ℕ) : ℚ) / 50 := by
    refine ⟨_, by rw [starClick_eq]; rfl, ?_⟩
    show (0 : ℚ) + 0.02 = _
    norm_num
  have hrun := starRunSingle 50 1 _ aI (by norm_num) (by norm_num) (by norm_num) hanims hprog
  have hcomp : (starClick (100, 0, 0)
      { cameraPos := (0, 0, 0), target := (0, 0, 0), anims := [], completions := 0 }).completions = 0 := by
    rw [starClick_eq]
  exact ⟨by rw [hrun.2, hcomp], hrun.1⟩

/-- C7 witness: a concrete run — 3 frames after clicking a marker the
view has not switched, and on the 59th frame it has switched once. -/
theorem c7_witness :
    3 ≤ 58 ∧
    ((solarTick^[3] (clickMarker (10, 0, 0)
        { cameraPos := (0, 0, 0), target := (0, 0, 0), animRef := none,
          transitioning := false, focused := none, completions := 0,
          viewSwitches := 0 })).viewSwitches =
      ({ cameraPos := (0, 0, 0), target := (0, 0, 0), animRef := none,
         transitioning := false, focused := none, completions := 0,
         viewSwitches := 0 } : SolarState).viewSwitches ∧
      ∃ a : SolarAnim, (solarTick^[3] (clickMarker (10, 0, 0)
        { cameraPos := (0, 0, 0), target := (0, 0, 0), animRef := none,
          transitioning := false, focused := none, completions := 0,
          viewSwitches := 0 })).animRef = some a ∧
        a.progress = ((3 : ℚ) + 1) / 60 ∧ a.progress < 1) ∧
    (solarTick^[59] (clickMarker (10, 0, 0)
        { cameraPos := (0, 0, 0), target := (0, 0, 0), animRef := none,
          transitioning := false, focused := none, completions := 0,
          viewSwitches := 0 })).viewSwitches =
      ({ cameraPos := (0, 0, 0), target := (0, 0, 0), animRef := none,
         transitioning := false, focused := none, completions := 0,
         viewSwitches := 0 } : SolarState).viewSwitches + 1 :=
  ⟨by norm_num,
   (c7_view_switch_only_at_completion
      { cameraPos := (0, 0, 0), target := (0, 0, 0), animRef := none,
        transitioning := false, focused := none, completions := 0,
        viewSwitches := 0 } (10, 0, 0)).2.1 3 (by norm_num),
   (c7_view_switch_only_at_completion
      { cameraPos := (0, 0, 0), target := (0, 0, 0), animRef := none,
        transitioning := false, focused := none, completions := 0,
        viewSwitches := 0 } (10, 0, 0)).2.2.1⟩

/-- C5 (amended): each raycast tier takes the nearest intersection and
earlier tiers pre-empt later ones — a click resolves enlarged hitboxes
first (so a planet is returned over any orbit line; clicks have no orbit
tier at all), then planet meshes, then system markers; a hover resolves
hitboxes first (hover state untouched), and a click with no hit in any
tier returns nothing; a hover miss however CLEARS both hover fields
rather than leaving them unchanged. -/
theorem c5_pick_priority (numSystems : ℕ)
    (hb mh mk ob : List Hit) (st : HoverState) :
    (∀ h t, hb = h :: t → List.Sorted hitLE hb →
      onClickPick numSystems hb mh mk = some (ClickResult.planet h) ∧
      ∀ x ∈ hb, h.dist ≤ x.dist) ∧
    (∀ h t, mh = h :: t →
      onClickPick numSystems [] mh mk = some (ClickResult.planetMesh h)) ∧
    (hb ≠ [] → onMouseMoveUpdate numSystems hb ob mk st = st) ∧
    onClickPick numSystems [] [] [] = none ∧
    onMouseMoveUpdate numSystems [] [] [] st =
      { hoveredOrbit := none, hoveredSystem := none } := by
  refine ⟨?_, ?_, ?_, rfl, rfl⟩
  · intro h t hhb hsort
    subst hhb
    refine ⟨rfl, ?_⟩
    intro x hx
    rcases List.mem_cons.mp hx with hx1 | hx2
    · rw [hx1]
    · exact (List.sorted_cons.mp hsort).1 x hx2
  · intro h t hmh
    subst hmh
    rfl
  · intro hne
    cases hb with
    | nil => exact absurd rfl hne
    | cons h t => rfl

/-- C5 witness: concrete sorted hitbox intersections — the click returns
the nearest hitbox hit and it is nearest within its tier. -/
theorem c5_witness :
    (([⟨1, 0⟩, ⟨2, 1⟩] : List Hit) = ⟨1, 0⟩ :: [⟨2, 1⟩]) ∧
    List.Sorted hitLE [⟨1, 0⟩, ⟨2, 1⟩] ∧
    (onClickPick 1 [⟨1, 0⟩, ⟨2, 1⟩] [] [] = some (ClickResult.planet ⟨1, 0⟩) ∧
      ∀ x ∈ ([⟨1, 0⟩, ⟨2, 1⟩] : List Hit), (⟨1, 0⟩ : Hit).dist ≤ x.dist) :=
  ⟨rfl, by simp [List.sorted_cons, hitLE],
   (c5_pick_priority 1 [⟨1, 0⟩, ⟨2, 1⟩] [] [] [] ⟨none, none⟩).1 ⟨1, 0⟩ [⟨2, 1⟩]
     rfl (by simp [List.sorted_cons, hitLE])⟩

/-- C5 counterexample: a pointer-move with no intersection in any tier
does NOT leave the hover state unchanged — a previously hovered system is
cleared to `none`, refuting "the current hover/selection state is left
unchanged" for the hover path. -/
theorem c5_counterexample_hover_cleared :
    onMouseMoveUpdate 1 [] [] [] { hoveredOrbit := none, hoveredSystem := some 0 } ≠
      { hoveredOrbit := none, hoveredSystem := some 0 } := by
  decide

/-- C9: every pickable body's picking volume encloses its visible
silhouette — in the overview the invisible hit sphere has radius
`max(3·displayRadius, 2.5)`, which is at least the display radius, and in
the star-detail view the rendered (and picked) planet sphere has scene
radius at least the `MIN_PLANET_SIZE = 0.5` floor. -/
theorem c9_picking_volume_encloses (planetRealRadius : ℚ) (pl_rade : Option ℚ) :
    hitboxRadius (displayRadius planetRealRadius) =
      max (displayRadius planetRealRadius * 3) 2.5 ∧
    displayRadius planetRealRadius ≤ hitboxRadius (displayRadius planetRealRadius) ∧
    0.5 ≤ planetRadiusScene pl_rade := by
  refine ⟨rfl, ?_, ?_⟩
  · have h1 : (0.15 : ℚ) ≤ displayRadius planetRealRadius := le_max_left _ _
    have h2 : displayRadius planetRealRadius ≤ displayRadius planetRealRadius * 3 := by
      nlinarith
    exact h2.trans (le_max_left _ _)
  · unfold planetRadiusScene
    by_cases hr : (jsOr pl_rade 1 * 0.0000426 * 100 * 0.5 : ℚ) < 0.5
    · rw [if_pos hr]
    · rw [if_neg hr]
      exact le_of_not_lt hr

/-- C8: a planet record with a missing or non-positive semi-major axis is
skipped — it contributes no orbit curve in `OrbitalPaths` and no body in
`StarRenderer` — while every other record of the same list is still
processed. -/
theorem c8_invalid_smax_skipped
    (pre post : List OrbitData) (o : OrbitData)
    (ppre ppost : List PlanetRecord) (pr : PlanetRecord)
    (h1 : o.pl_orbsmax = none ∨ ∃ a, o.pl_orbsmax = some a ∧ a ≤ 0)
    (h2 : pr.pl_orbsmax = none ∨ ∃ a, pr.pl_orbsmax = some a ∧ a ≤ 0) :
    renderedOrbits (pre ++ o :: post) = renderedOrbits pre ++ renderedOrbits post ∧
    renderedPlanets (ppre ++ pr :: ppost) =
      renderedPlanets ppre ++ renderedPlanets ppost := by
  constructor
  · have hs : skips o = true := by
      rcases h1 with hnone | ⟨a, hsome, hle⟩
      · simp [skips, hnone]
      · simp [skips, hsome, hle]
    simp [renderedOrbits, List.filter_append, List.filter_cons, hs]
  · have hs : skipsPlanet pr = true := by
      rcases h2 with hnone | ⟨a, hsome, hle⟩
      · simp [skipsPlanet, hnone]
      · simp [skipsPlanet, hsome, hle]
    simp [renderedPlanets, List.filter_append, List.filter_cons, hs]

/-- C8 witness: a record with a missing semi-major axis and one with a
negative semi-major axis are both skipped while a valid neighbour record
still renders. -/
theorem c8_witness :
    ((⟨none, none, none, none⟩ : OrbitData).pl_orbsmax = none ∨
      ∃ a, (⟨none, none, none, none⟩ : OrbitData).pl_orbsmax = some a ∧ a ≤ 0) ∧
    ((⟨some (-2), none, none, none, none⟩ : PlanetRecord).pl_orbsmax = none ∨
      ∃ a, (⟨some (-2), none, none, none, none⟩ : PlanetRecord).pl_orbsmax = some a ∧ a ≤ 0) ∧
    (renderedOrbits ([] ++ (⟨none, none, none, none⟩ : OrbitData) :: [⟨some 1, none, none, none⟩]) =
      renderedOrbits [] ++ renderedOrbits [⟨some 1, none, none, none⟩] ∧
     renderedPlanets ([] ++ (⟨some (-2), none, none, none, none⟩ : PlanetRecord) :: []) =
      renderedPlanets [] ++ renderedPlanets []) :=
  ⟨Or.inl rfl, Or.inr ⟨-2, rfl, by norm_num⟩,
   c8_invalid_smax_skipped [] [⟨some 1, none, none, none⟩] ⟨none, none, none, none⟩
     [] [] ⟨some (-2), none, none, none, none⟩
     (Or.inl rfl) (Or.inr ⟨-2, rfl, by norm_num⟩)⟩

/-- C2 counterexample: a record with eccentricity `1.2` and a valid
semi-major axis is NOT skipped — `OrbitalPaths` draws one curve for it
(with the eccentricity clamped) and `StarRenderer` renders one body —
refuting "zero curves and zero bodies for that record". -/
theorem c2_counterexample_e12_rendered :
    (renderedOrbits [⟨some 1, some 1.2, none, none⟩]).length = 1 ∧
    (renderedPlanets [⟨some 1, some 1.2, none, none, none⟩]).length = 1 := by
  constructor
  · have h : skips ⟨some 1, some 1.2, none, none⟩ = false := by
      simp only [skips, decide_eq_false_iff_not]
      norm_num
    simp [renderedOrbits, List.filter_cons, h]
  · have h : skipsPlanet ⟨some 1, some 1.2, none, none, none⟩ = false := by
      simp only [skipsPlanet, decide_eq_false_iff_not]
      norm_num
    simp [renderedPlanets, List.filter_cons, h]

/-- C2 (amended): a planet record with eccentricity ≥ 1 but a valid
semi-major axis is not skipped: `OrbitalPaths` clamps the eccentricity to
`0.95` and still draws its full 181-point curve (every point defined, so
no crash), `StarRenderer` still renders its body, and the rest of the
list is processed unchanged; only the semi-major-axis guard skips
records. -/
theorem c2_ecc_ge_one_clamped_and_rendered
    (pre post : List OrbitData) (o : OrbitData) (smax e : ℚ)
    (hsm : o.pl_orbsmax = some smax) (hpos : 0 < smax)
    (he : o.pl_orbeccen = some e) (he1 : 1 ≤ e)
    (ppre ppost : List PlanetRecord) (pr : PlanetRecord) (psm : ℚ)
    (hpsm : pr.pl_orbsmax = some psm) (hppos : 0 < psm) :
    renderedOrbits (pre ++ o :: post) =
      renderedOrbits pre ++ o :: renderedOrbits post ∧
    eccUsed o.pl_orbeccen = 0.95 ∧
    (∀ starRadius : ℚ, (orbitCurve starRadius o).length = 181 ∧
      ∀ p ∈ orbitCurve starRadius o, p.isSome) ∧
    renderedPlanets (ppre ++ pr :: ppost) =
      renderedPlanets ppre ++ pr :: renderedPlanets ppost := by
  have hskip : skips o = false := by
    simp only [skips, hsm, decide_eq_false_iff_not]
    exact not_le.mpr hpos
  have hecc : eccUsed o.pl_orbeccen = 0.95 := by
    rw [he]
    unfold eccUsed
    have hjs : jsOr (some e) 0 = e := by
      simp [jsOr, show e ≠ 0 from by linarith]
    rw [hjs]
    exact min_eq_right (le_trans (by norm_num : (0.95 : ℚ) ≤ 1) he1)
  have hpskip : skipsPlanet pr = false := by
    simp only [skipsPlanet, hpsm, decide_eq_false_iff_not]
    exact not_le.mpr hppos
  refine ⟨?_, hecc, ?_, ?_⟩
  · simp [renderedOrbits, List.filter_append, List.filter_cons, hskip]
  · intro starRadius
    have hb : ∃ brr : ℝ, bSemiMinor ((sceneA starRadius o : ℚ) : ℝ)
        ((eccUsed o.pl_orbeccen : ℚ) : ℝ) = some brr := by
      rw [hecc]
      unfold bSemiMinor jsSqrt
      rw [if_pos (by push_cast; norm_num)]
      exact ⟨_, rfl⟩
    constructor
    · exact List.length_ofFn _
    · intro p hp
      simp only [orbitCurve, List.mem_ofFn] at hp
      obtain ⟨i, hi⟩ := hp
      rw [← hi]
      obtain ⟨brr, hbrr⟩ := hb
      simp [orbitPointAt, hbrr]
  · simp [renderedPlanets, List.filter_append, List.filter_cons, hpskip]

/-- C2 witness: a concrete record with eccentricity `2` and semi-major
axis `1` — it is rendered with clamped eccentricity `0.95`. -/
theorem c2_witness :
    ((⟨some 1, some 2, none, none⟩ : OrbitData).pl_orbsmax = some 1) ∧
    (0 : ℚ) < 1 ∧
    ((⟨some 1, some 2, none, none⟩ : OrbitData).pl_orbeccen = some 2) ∧
    (1 : ℚ) ≤ 2 ∧
    ((⟨some 1, some 2, none, none, none⟩ : PlanetRecord).pl_orbsmax = some 1) ∧
    eccUsed (⟨some 1, some 2, none, none⟩ : OrbitData).pl_orbeccen = 0.95 :=
  ⟨rfl, by norm_num, rfl, by norm_num, rfl,
   (c2_ecc_ge_one_clamped_and_rendered [] [] ⟨some 1, some 2, none, none⟩ 1 2
     rfl (by norm_num) rfl (by norm_num)
     [] [] ⟨some 1, some 2, none, none, none⟩ 1 rfl (by norm_num)).2.1⟩

/-- C1 counterexample: at `a = 1`, `e = 1/2`, `θ = 0` the code's in-plane
point is `(1, 0)` (centered parametric form) while the spec's focus-based
radial formula gives `(1/2, 0)` — the star sits at the ellipse's center
in this code, not at a focus. -/
theorem c1_counterexample_center_not_focus :
    (bSemiMinor 1 (1/2)).map (fun b => planePoint 1 b 0) ≠
      some (ellipsePointSpec 1 (1/2) 0) := by
  have hb : bSemiMinor (1:ℝ) (1/2) = some (1 * Real.sqrt (1 - (1/2 : ℝ) * (1/2))) := by
    unfold bSemiMinor jsSqrt
    rw [if_pos (by norm_num)]
    rfl
  intro hcon
  rw [hb] at hcon
  simp only [Option.map_some', Option.some.injEq] at hcon
  have h1 := congrArg Prod.fst hcon
  simp only [planePoint, ellipsePointSpec] at h1
  rw [Real.cos_zero] at h1
  norm_num at h1

/-- C1 (amended): the in-plane point of the orbit curve is computed from
the center-based parametric form `x = a·cos θ`, `y = b·sin θ` with
`b = a·√(1-e²)`: the traced points satisfy the centered-ellipse equation
`(x/a)² + (y/b)² = 1` and the curve is centrally symmetric through the
origin — the central star sits at the center of the ellipse, not at a
focus. -/
theorem c1_centered_parametrization (a e θ : ℝ)
    (ha : 0 < a) (he0 : 0 ≤ e) (he1 : e < 1) :
    bSemiMinor a e = some (a * Real.sqrt (1 - e * e)) ∧
    planePoint a (a * Real.sqrt (1 - e * e)) θ =
      (a * Real.cos θ, a * Real.sqrt (1 - e * e) * Real.sin θ) ∧
    ((planePoint a (a * Real.sqrt (1 - e * e)) θ).1 / a) ^ 2 +
      ((planePoint a (a * Real.sqrt (1 - e * e)) θ).2 /
        (a * Real.sqrt (1 - e * e))) ^ 2 = 1 ∧
    planePoint a (a * Real.sqrt (1 - e * e)) (θ + Real.pi) =
      (-(planePoint a (a * Real.sqrt (1 - e * e)) θ).1,
       -(planePoint a (a * Real.sqrt (1 - e * e)) θ).2) := by
  have hpos : 0 < 1 - e * e := by nlinarith
  have hs : 0 < Real.sqrt (1 - e * e) := Real.sqrt_pos.mpr hpos
  refine ⟨?_, rfl, ?_, ?_⟩
  · unfold bSemiMinor jsSqrt
    rw [if_pos hpos.le]
    rfl
  · show (a * Real.cos θ / a) ^ 2 +
      (a * Real.sqrt (1 - e * e) * Real.sin θ / (a * Real.sqrt (1 - e * e))) ^ 2 = 1
    rw [mul_div_cancel_left₀ _ ha.ne']
    rw [mul_div_cancel_left₀ _ (mul_pos ha hs).ne']
    exact Real.cos_sq_add_sin_sq θ
  · have hc : Real.cos (θ + Real.pi) = -Real.cos θ := by simp [Real.cos_add]
    have hsn : Real.sin (θ + Real.pi) = -Real.sin θ := by simp [Real.sin_add]
    show (a * Real.cos (θ + Real.pi), a * Real.sqrt (1 - e * e) * Real.sin (θ + Real.pi)) =
      (-(a * Real.cos θ), -(a * Real.sqrt (1 - e * e) * Real.sin θ))
    rw [hc, hsn, mul_neg, mul_neg]

/-- C1 witness: the amended statement instantiated at `a = 1`, `e = 1/2`. -/
theorem c1_witness :
    (0 : ℝ) < 1 ∧ (0 : ℝ) ≤ 1/2 ∧ (1/2 : ℝ) < 1 ∧
    bSemiMinor 1 (1/2) = some (1 * Real.sqrt (1 - (1/2 : ℝ) * (1/2))) :=
  ⟨by norm_num, by norm_num, by norm_num,
   (c1_centered_parametrization 1 (1/2) 0 (by norm_num) (by norm_num) (by norm_num)).1⟩

theorem orbitPointAt_closed (a : ℝ) (bOpt : Option ℝ) (incl argp : ℝ) :
    orbitPointAt a bOpt incl argp 180 = orbitPointAt a bOpt incl argp 0 := by
  have hpp : ∀ b : ℝ, planePoint a b (thetaAt 180) = planePoint a b (thetaAt 0) := by
    intro b
    have hθ0 : thetaAt 0 = 0 := by
      unfold thetaAt
      norm_num
    have hθ180 : thetaAt 180 = 2 * Real.pi := by
      unfold thetaAt
      norm_num
    unfold planePoint
    rw [hθ0, hθ180, Real.cos_two_pi, Real.sin_two_pi, Real.cos_zero, Real.sin_zero]
  cases bOpt with
  | none =>
    unfold orbitPointAt
    rw [Option.map_none', Option.map_none']
  | some b =>
    unfold orbitPointAt
    simp only [Option.map_some']
    rw [hpp b]

theorem orbitCurve_all_isSome (starRadius : ℚ) (o : OrbitData) (brr : ℝ)
    (hb : bSemiMinor ((sceneA starRadius o : ℚ) : ℝ)
      ((eccUsed o.pl_orbeccen : ℚ) : ℝ) = some brr) :
    ∀ p ∈ orbitCurve starRadius o, p.isSome := by
  intro p hp
  simp only [orbitCurve, List.mem_ofFn] at hp
  obtain ⟨i, hi⟩ := hp
  rw [← hi]
  simp [orbitPointAt, hb]

/-- C6: for valid elements (`a > 0`, `0 ≤ e < 1`) the generated curve has
exactly 181 sample points, every point is defined, and the loop is
closed: the first and the last sampled point are equal (the sampling runs
`θ` from `0` to `2π` inclusive). -/
theorem c6_closed_loop (strad smax e incl argp : ℚ)
    (hsm : 0 < smax) (hst : 0 ≤ strad) (he0 : 0 ≤ e) (he1 : e < 1) :
    (orbitCurve strad ⟨some smax, some e, some incl, some argp⟩).length = 181 ∧
    (orbitCurve strad ⟨some smax, some e, some incl, some argp⟩)[0]? =
      (orbitCurve strad ⟨some smax, some e, some incl, some argp⟩)[180]? ∧
    ∀ p ∈ orbitCurve strad ⟨some smax, some e, some incl, some argp⟩, p.isSome := by
  refine ⟨List.length_ofFn _, ?_, ?_⟩
  · unfold orbitCurve
    dsimp only
    rw [List.getElem?_ofFn, List.getElem?_ofFn]
    unfold List.ofFnNthVal
    rw [dif_pos (by norm_num : (0 : ℕ) < 181), dif_pos (by norm_num : (180 : ℕ) < 181)]
    exact congrArg some (orbitPointAt_closed _ _ _ _).symm
  · have hjs : jsOr (some e) 0 = e := by
      by_cases h0 : e = 0
      · simp [jsOr, h0]
      · simp [jsOr, h0]
    have hE : eccUsed (⟨some smax, some e, some incl, some argp⟩ : OrbitData).pl_orbeccen =
        min e 0.95 := by
      show eccUsed (some e) = _
      unfold eccUsed
      rw [hjs]
    have hlo : (0 : ℚ) ≤ min e 0.95 := le_min he0 (by norm_num)
    have hhi : min e (0.95 : ℚ) ≤ 0.95 := min_le_right _ _
    have hEpos : (0 : ℝ) ≤ 1 - ((min e 0.95 : ℚ) : ℝ) * ((min e 0.95 : ℚ) : ℝ) := by
      have h1 : ((min e 0.95 : ℚ) : ℝ) < 1 := by
        exact_mod_cast lt_of_le_of_lt hhi (by norm_num : (0.95 : ℚ) < 1)
      have h2 : (0 : ℝ) ≤ ((min e 0.95 : ℚ) : ℝ) := by exact_mod_cast hlo
      nlinarith
    have hbb : bSemiMinor ((sceneA strad ⟨some smax, some e, some incl, some argp⟩ : ℚ) : ℝ)
        ((eccUsed (⟨some smax, some e, some incl, some argp⟩ : OrbitData).pl_orbeccen : ℚ) : ℝ) =
        some (((sceneA strad ⟨some smax, some e, some incl, some argp⟩ : ℚ) : ℝ) *
          Real.sqrt (1 - ((min e 0.95 : ℚ) : ℝ) * ((min e 0.95 : ℚ) : ℝ))) := by
      rw [hE]
      unfold bSemiMinor jsSqrt
      rw [if_pos hEpos]
      rfl
    exact orbitCurve_all_isSome strad _ _ hbb

/-- C6 witness: the closed-loop statement instantiated at a circular
one-AU orbit. -/
theorem c6_witness :
    (0 : ℚ) < 1 ∧ (0 : ℚ) ≤ 0 ∧ (0 : ℚ) ≤ 0 ∧ (0 : ℚ) < 1 ∧
    (orbitCurve 0 ⟨some 1, some 0, some 0, some 0⟩)[0]? =
      (orbitCurve 0 ⟨some 1, some 0, some 0, some 0⟩)[180]? :=
  ⟨by norm_num, le_refl 0, le_refl 0, by norm_num,
   (c6_closed_loop 0 1 0 0 0 (by norm_num) (le_refl 0) (le_refl 0) (by norm_num)).2.1⟩

/-- C10 counterexample: for an input eccentricity of `-2` (with a valid
semi-major axis) the clamp `min(e, 0.95)` does not bound it below,
`1 - e²` is negative, the semi-minor axis is `NaN`, and all 181 generated
points are `NaN` — refuting "every one of the 181 generated curve points
is a finite 3D point" for input eccentricities below `-1`. -/
theorem c10_counterexample_neg_ecc :
    orbitCurve 1 ⟨some 1, some (-2), none, none⟩ = List.replicate 181 none := by
  have hE : eccUsed (⟨some 1, some (-2), none, none⟩ : OrbitData).pl_orbeccen = -2 := by
    show eccUsed (some (-2)) = -2
    unfold eccUsed
    have hjs : jsOr (some (-2)) 0 = -2 := by norm_num [jsOr]
    rw [hjs]
    exact min_eq_left (by norm_num)
  have hb : bSemiMinor ((sceneA 1 ⟨some 1, some (-2), none, none⟩ : ℚ) : ℝ)
      ((eccUsed (⟨some 1, some (-2), none, none⟩ : OrbitData).pl_orbeccen : ℚ) : ℝ) = none := by
    rw [hE]
    unfold bSemiMinor jsSqrt
    rw [if_neg (by push_cast; norm_num)]
    rfl
  unfold orbitCurve
  dsimp only
  rw [hb]
  have hfun : (fun i : Fin 181 => orbitPointAt
      ((sceneA 1 ⟨some 1, some (-2), none, none⟩ : ℚ) : ℝ) none
      (((jsOr (⟨some 1, some (-2), none, none⟩ : OrbitData).pl_orbincl 0 : ℚ) : ℝ) * (Real.pi / 180))
      (((jsOr (⟨some 1, some (-2), none, none⟩ : OrbitData).pl_orblper 0 : ℚ) : ℝ) * (Real.pi / 180))
      (i : ℕ)) = fun _ : Fin 181 => (none : Option (ℝ × ℝ × ℝ)) := by
    funext i
    unfold orbitPointAt
    rw [Option.map_none']
  rw [hfun]
  exact List.ofFn_const 181 none

/-- C10 (amended): the eccentricity actually used is
`min(e or 0 when missing, 0.95)` — an upper clamp only.  For every record
with positive semi-major axis whose defaulted input eccentricity is
greater than `-1` (in particular when it is ≥ 1 or absent), the
semi-minor axis is real and positive and the 181 generated points are
all defined; a defaulted eccentricity below `-1` instead makes `1 - e²`
negative and the semi-minor axis and all points `NaN`. -/
theorem c10_curve_defined_above_neg_one (strad smax : ℚ) (eo io wo : Option ℚ)
    (hsm : 0 < smax) (hst : 0 ≤ strad) (hgt : -1 < jsOr eo 0) :
    eccUsed eo = min (jsOr eo 0) 0.95 ∧
    (∃ brr : ℝ, bSemiMinor ((sceneA strad ⟨some smax, eo, io, wo⟩ : ℚ) : ℝ)
      ((eccUsed (⟨some smax, eo, io, wo⟩ : OrbitData).pl_orbeccen : ℚ) : ℝ) = some brr ∧
      0 < brr) ∧
    (orbitCurve strad ⟨some smax, eo, io, wo⟩).length = 181 ∧
    ∀ p ∈ orbitCurve strad ⟨some smax, eo, io, wo⟩, p.isSome := by
  have hlo : (-1 : ℚ) < eccUsed eo := lt_min hgt (by norm_num)
  have hhi : eccUsed eo ≤ 0.95 := min_le_right _ _
  have hapos : (0 : ℚ) < sceneA strad ⟨some smax, eo, io, wo⟩ := by
    show (0 : ℚ) < smax * 3 + strad
    linarith
  have hEpos : (0 : ℝ) < 1 - ((eccUsed eo : ℚ) : ℝ) * ((eccUsed eo : ℚ) : ℝ) := by
    have h1 : (-1 : ℝ) < ((eccUsed eo : ℚ) : ℝ) := by exact_mod_cast hlo
    have h2 : ((eccUsed eo : ℚ) : ℝ) < 1 := by
      exact_mod_cast lt_of_le_of_lt hhi (by norm_num : (0.95 : ℚ) < 1)
    nlinarith
  have hbb : bSemiMinor ((sceneA strad ⟨some smax, eo, io, wo⟩ : ℚ) : ℝ)
      ((eccUsed (⟨some smax, eo, io, wo⟩ : OrbitData).pl_orbeccen : ℚ) : ℝ) =
      some (((sceneA strad ⟨some smax, eo, io, wo⟩ : ℚ) : ℝ) *
        Real.sqrt (1 - ((eccUsed eo : ℚ) : ℝ) * ((eccUsed eo : ℚ) : ℝ))) := by
    show bSemiMinor _ ((eccUsed eo : ℚ) : ℝ) = _
    unfold bSemiMinor jsSqrt
    rw [if_pos hEpos.le]
    rfl
  refine ⟨rfl, ⟨_, hbb, ?_⟩, List.length_ofFn _, orbitCurve_all_isSome strad _ _ hbb⟩
  exact mul_pos (by exact_mod_cast hapos) (Real.sqrt_pos.mpr hEpos)

/-- C10 witness: a record with input eccentricity `2` (≥ 1) and
semi-major axis `1` — the clamp applies and the curve has 181 defined
points. -/
theorem c10_witness :
    (0 : ℚ) < 1 ∧ (0 : ℚ) ≤ 0 ∧ (-1 : ℚ) < jsOr (some 2) 0 ∧
    eccUsed (some 2) = min (jsOr (some 2) 0) 0.95 :=
  ⟨by norm_num, le_refl 0, by norm_num [jsOr],
   (c10_curve_defined_above_neg_one 0 1 (some 2) none none (by norm_num) (le_refl 0)
     (by norm_num [jsOr])).1⟩
